import Mathlib

set_option maxRecDepth 8192

/-!
Verification of the momentdb record layer: the segment codec
(src/vfs/segment.go) and the atomic number type (src/types/number.go).

Machine integers are modelled as Nat / Int with explicit wrap-around where
the Go code performs fixed-width casts or overflowing arithmetic.
-/

/-- Two's-complement wrap of an integer into the signed 64-bit range,
the semantics of Go int64 arithmetic and of uint64-to-int64 conversion. -/
def int64wrap (x : Int) : Int :=
  (x + 9223372036854775808) % 18446744073709551616 - 9223372036854775808

/-- Go conversion uint64(x) of an int64 value x: reduce modulo 2^64. -/
def uint64ofInt (x : Int) : Nat :=
  (x % 18446744073709551616).toNat

/-- types.Number (src/types/number.go 24-27): an int64 Value plus a uint64
TTL field; the atomic operations below touch only Value. -/
structure types.Number where
  Value : Int
  TTL : Nat
deriving DecidableEq

/-- Number.Add (number.go 39-41): atomic fetch-add, returning the
post-update value; int64 overflow wraps. -/
def types.Number.Add (num : types.Number) (delta : Int) : Int × types.Number :=
  (int64wrap (num.Value + delta), { num with Value := int64wrap (num.Value + delta) })

/-- Number.Sub (number.go 44-46): atomic fetch-add of the int64 negation
of delta, returning the post-update value. -/
def types.Number.Sub (num : types.Number) (delta : Int) : Int × types.Number :=
  (int64wrap (num.Value + int64wrap (-delta)),
   { num with Value := int64wrap (num.Value + int64wrap (-delta)) })

/-- Number.Increment (number.go 49-51). -/
def types.Number.Increment (num : types.Number) : Int × types.Number :=
  num.Add 1

/-- Number.Decrement (number.go 54-56). -/
def types.Number.Decrement (num : types.Number) : Int × types.Number :=
  num.Sub 1

/-- Number.Set (number.go 59-61): atomic store of an int64. -/
def types.Number.Set (num : types.Number) (newValue : Int) : types.Number :=
  { num with Value := int64wrap newValue }

/-- Number.Get (number.go 64-66): atomic load. -/
def types.Number.Get (num : types.Number) : Int :=
  num.Value

/-- Number.CompareAndSwap (number.go 69-71): store new iff the current
value equals old, reporting whether the swap happened. -/
def types.Number.CompareAndSwap (num : types.Number) (old new : Int) :
    Bool × types.Number :=
  if num.Value = old then (true, { num with Value := int64wrap new })
  else (false, num)

example : (types.Number.mk 41 0).Increment = (42, types.Number.mk 42 0) := by decide
example : (types.Number.mk 9223372036854775807 0).Add 1 =
    (-9223372036854775808, types.Number.mk (-9223372036854775808) 0) := by decide

/-- types.Set: an opaque collection value (its internals are outside the
segment codec's concern); only its canonically-decoded payload is kept. -/
structure types.Set where
  raw : Nat
deriving DecidableEq

/-- types.ZSet: an opaque score-ordered collection value. -/
structure types.ZSet where
  raw : Nat
deriving DecidableEq

/-- types.Text: an opaque scalar string value. -/
structure types.Text where
  raw : Nat
deriving DecidableEq

/-- types.Table: an opaque structured-row value. -/
structure types.Table where
  raw : Nat
deriving DecidableEq

/-- types.List: an opaque ordered-sequence value. -/
structure types.List where
  raw : Nat
deriving DecidableEq

/-- Kind (segment.go 26-36): iota enumeration Set=0, ZSet=1, List=2,
Text=3, Table=4, Number=5, Unknown=6. -/
inductive Kind where
  | Set
  | ZSet
  | List
  | Text
  | Table
  | Number
  | Unknown
deriving DecidableEq

/-- The wire tag of each Kind, following the Go iota order. -/
def kindTag : Kind → Nat
  | .Set => 0
  | .ZSet => 1
  | .List => 2
  | .Text => 3
  | .Table => 4
  | .Number => 5
  | .Unknown => 6

/-- The lower-case name of each Kind, as it appears inside error
messages ("set", "number", ...). -/
def kindWord : Kind → String
  | .Set => "set"
  | .ZSet => "zset"
  | .List => "list"
  | .Text => "text"
  | .Table => "table"
  | .Number => "number"
  | .Unknown => "unknown"

/-- A runtime value handed to the codec through the Serializable interface,
as discriminated by the type switch in toKind (segment.go 195-214): the six
value variants, the pointer forms of each (a Go *types.T also implements the
interface), and any other implementer (carrying its printed description). -/
inductive GoValue where
  | VSet (s : types.Set)
  | VZSet (z : types.ZSet)
  | VList (l : types.List)
  | VText (t : types.Text)
  | VTable (t : types.Table)
  | VNumber (n : types.Number)
  | PSet (s : types.Set)
  | PZSet (z : types.ZSet)
  | PList (l : types.List)
  | PText (t : types.Text)
  | PTable (t : types.Table)
  | PNumber (n : types.Number)
  | Other (desc : String)
deriving DecidableEq

/-- toKind (segment.go 195-214): the type switch mapping a runtime value to
its Kind; the six value cases plus the single pointer case *types.Number
succeed, everything else falls to the default branch. -/
def toKind : GoValue → Except String Kind
  | .VSet _ => .ok .Set
  | .VZSet _ => .ok .ZSet
  | .VList _ => .ok .List
  | .VText _ => .ok .Text
  | .VTable _ => .ok .Table
  | .VNumber _ => .ok .Number
  | .PNumber _ => .ok .Number
  | _ => .error "unknown data type"

/-- Modelled from the spec: the canonical (BSON) document encoding of a
Number value produced by the external bson library (not part of this
repository): a self-describing document, modelled at word granularity as a
marker word followed by the two fields, the int64 value stored as its
uint64 bit pattern. -/
def bsonMarshalNumber (num : types.Number) : List Nat :=
  [16, uint64ofInt num.Value, num.TTL]

/-- Modelled from the spec: canonical (BSON) decoding of a Number document,
the inverse of bsonMarshalNumber; fails on any byte stream that is not a
well-formed Number document. -/
def bsonUnmarshalNumber (bs : List Nat) : Option types.Number :=
  match bs with
  | [d, v, t] =>
      if d = 16 ∧ v < 18446744073709551616 ∧ t < 18446744073709551616 then
        some ⟨int64wrap v, t⟩
      else none
  | _ => none

/-- ToBSON (the Serializable capability): canonical encoding of a runtime
value. Only the Number encoding is inspected by the claims; the collection
variants are modelled as opaque one-word documents. A pointer receiver
marshals the value it points to. -/
def GoValue.ToBSON : GoValue → Option (List Nat)
  | .VNumber n => some (bsonMarshalNumber n)
  | .PNumber n => some (bsonMarshalNumber n)
  | .VSet s => some [0, s.raw]
  | .PSet s => some [0, s.raw]
  | .VZSet z => some [1, z.raw]
  | .PZSet z => some [1, z.raw]
  | .VList l => some [2, l.raw]
  | .PList l => some [2, l.raw]
  | .VText t => some [3, t.raw]
  | .PText t => some [3, t.raw]
  | .VTable t => some [4, t.raw]
  | .PTable t => some [4, t.raw]
  | .Other _ => some [5]

/-- Modelled from the spec: the pluggable Content Transformer (the engine
code behind transformer.Encode in segment.go 72 is not under src/): a
two-method byte-to-byte contract, both directions fallible. -/
structure Transformer where
  Encode : List Nat → Option (List Nat)
  Decode : List Nat → Option (List Nat)

/-- The spec's contract for a transformer: decode reverses encode. -/
def Transformer.RoundTrip (tr : Transformer) : Prop :=
  ∀ bs out, tr.Encode bs = some out → tr.Decode out = some bs

/-- The identity transformer (no compression or obfuscation configured). -/
def idTransformer : Transformer :=
  ⟨fun bs => some bs, fun bs => some bs⟩

/-- A transformer that prepends a marker word on encode and strips it on
decode: a legitimate instance of the spec's transformer contract whose
output is not itself a canonical document. -/
def prependTransformer : Transformer :=
  ⟨fun bs => some (0 :: bs),
   fun bs => match bs with
             | 0 :: rest => some rest
             | _ => none⟩

/-- Segment (segment.go 38-48), field for field; Type' stands for the Go
field Type. The uint64 and uint32 fields hold values already reduced by
the casts performed at the construction sites. -/
structure Segment where
  Tombstone : Int
  Type' : Kind
  ExpiredAt : Nat
  CreatedAt : Nat
  KeySize : Nat
  ValueSize : Nat
  Key : List Nat
  Value : List Nat
deriving DecidableEq

/-- The expiry computed by NewSegment when ttl > 0 (segment.go 63):
uint64(now.Add(time.Second * time.Duration(ttl)).UnixNano()), with t2 the
nanosecond reading of the second time.Now() call; every fixed-width cast
and overflow of the Go expression is made explicit. -/
def expiredAtOf (t2 ttl : Nat) : Nat :=
  uint64ofInt (int64wrap ((t2 : Int) + int64wrap (1000000000 * int64wrap (ttl : Int))))

/-- NewSegment (segment.go 55-89). The clock readings of the two
time.Now() calls are passed as t1 (the creation timestamp, line 61) and t2
(the reading taken while computing the expiry, line 63); tr is the
engine-supplied transformer. -/
def NewSegment (tr : Transformer) (t1 t2 : Nat) (key : List Nat) (data : GoValue)
    (ttl : Nat) : Except String Segment :=
  match toKind data with
  | .error e => .error ("unsupported data type: " ++ e)
  | .ok kind =>
    match data.ToBSON with
    | none => .error "bson marshal error"
    | some bs =>
      match tr.Encode bs with
      | none => .error "transformer encode: transformer error"
      | some encodedata =>
        .ok { Tombstone := 0, Type' := kind,
              ExpiredAt := if 0 < ttl then expiredAtOf t2 ttl else 0,
              CreatedAt := t1 % 18446744073709551616,
              KeySize := key.length % 4294967296,
              ValueSize := encodedata.length % 4294967296,
              Key := key, Value := encodedata }

/-- NewTombstoneSegment (segment.go 91-103); t1 is the time.Now() reading. -/
def NewTombstoneSegment (t1 : Nat) (key : List Nat) : Segment :=
  { Tombstone := 1, Type' := Kind.Unknown,
    ExpiredAt := 0, CreatedAt := t1 % 18446744073709551616,
    KeySize := key.length % 4294967296, ValueSize := 0,
    Key := key, Value := [] }

/-- Segment.IsTombstone (segment.go 105-107). -/
def Segment.IsTombstone (s : Segment) : Bool :=
  s.Tombstone == 1

/-- Segment.Size (segment.go 109-112): 26-byte fixed header plus the two
variable regions plus the 4-byte CRC, in uint32 arithmetic. -/
def Segment.Size (s : Segment) : Nat :=
  (26 + s.KeySize + s.ValueSize + 4) % 4294967296

/-- Segment.ToSet (segment.go 114-124): kind guard, then canonical
decoding of the payload (opaque for collection types). -/
def Segment.ToSet (s : Segment) : Except String types.Set :=
  if s.Type' ≠ Kind.Set then .error "not support conversion to set type"
  else .ok ⟨s.Value.headD 0⟩

/-- Segment.ToZSet (segment.go 126-136). -/
def Segment.ToZSet (s : Segment) : Except String types.ZSet :=
  if s.Type' ≠ Kind.ZSet then .error "not support conversion to zset type"
  else .ok ⟨s.Value.headD 0⟩

/-- Segment.ToText (segment.go 138-148). -/
def Segment.ToText (s : Segment) : Except String types.Text :=
  if s.Type' ≠ Kind.Text then .error "not support conversion to text type"
  else .ok ⟨s.Value.headD 0⟩

/-- Segment.ToList (segment.go 150-160). -/
def Segment.ToList (s : Segment) : Except String types.List :=
  if s.Type' ≠ Kind.List then .error "not support conversion to list type"
  else .ok ⟨s.Value.headD 0⟩

/-- Segment.ToTable (segment.go 162-172). -/
def Segment.ToTable (s : Segment) : Except String types.Table :=
  if s.Type' ≠ Kind.Table then .error "not support conversion to table type"
  else .ok ⟨s.Value.headD 0⟩

/-- Segment.ToNumber (segment.go 174-184): kind guard, then bson
unmarshalling of the stored payload bytes exactly as they sit in the
segment (the code applies no transformer decoding here). -/
def Segment.ToNumber (s : Segment) : Except String types.Number :=
  if s.Type' ≠ Kind.Number then .error "not support conversion to number type"
  else
    match bsonUnmarshalNumber s.Value with
    | none => .error "bson unmarshal error"
    | some n => .ok n

/-- Segment.TTL (segment.go 186-192); now is the uint64 nanosecond reading
of the embedded time.Now() call. The subtraction happens in uint64 and is
then cast to int64. -/
def Segment.TTL (s : Segment) (now : Nat) : Int :=
  if 0 < s.ExpiredAt ∧ now < s.ExpiredAt then int64wrap ((s.ExpiredAt - now : Nat) : Int)
  else -1

/-- One little-endian 32-bit field of the wire form. -/
def u32le (n : Nat) : List Nat :=
  [n % 256, n / 256 % 256, n / 65536 % 256, n / 16777216 % 256]

/-- One little-endian 64-bit field of the wire form. -/
def u64le (n : Nat) : List Nat :=
  u32le (n % 4294967296) ++ u32le (n / 4294967296)

/-- Modelled from the spec: the 4-byte CRC32 checksum appended to the wire
form (the writer that computes it is not under src/); only its fixed
4-byte width matters to the size claims, so the polynomial is abstracted
into a simple 32-bit fold. -/
def crc32 (bs : List Nat) : List Nat :=
  u32le (bs.foldl (fun a b => (a * 31 + b) % 4294967296) 0)

/-- Modelled from the spec: the serialized wire form of a segment per the
layout table of the spec: 1-byte tombstone, 1-byte kind tag, 8-byte
expires_at, 8-byte created_at, 4-byte key size, 4-byte value size, the key
and value bytes, and the trailing 4-byte checksum. -/
def serialize (s : Segment) : List Nat :=
  (s.Tombstone.toNat % 256) :: (kindTag s.Type' % 256) ::
    (u64le s.ExpiredAt ++ u64le s.CreatedAt ++ u32le s.KeySize ++ u32le s.ValueSize ++
      s.Key ++ s.Value) ++
    crc32 ((s.Tombstone.toNat % 256) :: (kindTag s.Type' % 256) ::
      (u64le s.ExpiredAt ++ u64le s.CreatedAt ++ u32le s.KeySize ++ u32le s.ValueSize ++
        s.Key ++ s.Value))

example : (serialize (NewTombstoneSegment 0 [107])).length = 31 := by decide
example : NewSegment idTransformer 0 0 [107] (GoValue.VNumber ⟨42, 0⟩) 0 =
    .ok { Tombstone := 0, Type' := Kind.Number, ExpiredAt := 0, CreatedAt := 0,
          KeySize := 1, ValueSize := 3, Key := [107], Value := [16, 42, 0] } := rfl
example : Segment.ToNumber ⟨0, Kind.Number, 0, 0, 1, 3, [107], [16, 42, 0]⟩ =
    .ok ⟨42, 0⟩ := rfl

lemma int64wrap_eq_self (x : Int) (h1 : -9223372036854775808 ≤ x)
    (h2 : x < 9223372036854775808) : int64wrap x = x := by
  unfold int64wrap
  omega

lemma int64wrap_uint64ofInt (x : Int) (h1 : -9223372036854775808 ≤ x)
    (h2 : x < 9223372036854775808) : int64wrap ((uint64ofInt x : Nat) : Int) = x := by
  unfold int64wrap uint64ofInt
  omega

lemma uint64ofInt_lt (x : Int) : uint64ofInt x < 18446744073709551616 := by
  unfold uint64ofInt
  omega

lemma bson_roundtrip (n : types.Number) (h1 : -9223372036854775808 ≤ n.Value)
    (h2 : n.Value < 9223372036854775808) (h3 : n.TTL < 18446744073709551616) :
    bsonUnmarshalNumber (bsonMarshalNumber n) = some n := by
  unfold bsonMarshalNumber bsonUnmarshalNumber
  simp only [uint64ofInt_lt, h3, and_true, true_and, if_pos, and_self,
    int64wrap_uint64ofInt n.Value h1 h2]

lemma expiredAtOf_small (t2 ttl : Nat) (h : t2 + ttl * 1000000000 < 9223372036854775808) :
    expiredAtOf t2 ttl = t2 + ttl * 1000000000 := by
  unfold expiredAtOf uint64ofInt int64wrap
  omega

lemma newSegment_ok {tr : Transformer} {t1 t2 : Nat} {key : List Nat} {data : GoValue}
    {ttl : Nat} {seg : Segment} (h : NewSegment tr t1 t2 key data ttl = .ok seg) :
    ∃ kind bs encodedata, toKind data = .ok kind ∧ data.ToBSON = some bs ∧
      tr.Encode bs = some encodedata ∧
      seg = { Tombstone := 0, Type' := kind,
              ExpiredAt := if 0 < ttl then expiredAtOf t2 ttl else 0,
              CreatedAt := t1 % 18446744073709551616,
              KeySize := key.length % 4294967296,
              ValueSize := encodedata.length % 4294967296,
              Key := key, Value := encodedata } := by
  unfold NewSegment at h
  cases hk : toKind data with
  | error e => simp only [hk] at h; exact Except.noConfusion h
  | ok kind =>
    simp only [hk] at h
    cases hb : GoValue.ToBSON data with
    | none => simp only [hb] at h; exact Except.noConfusion h
    | some bs =>
      simp only [hb] at h
      cases he : tr.Encode bs with
      | none => simp only [he] at h; exact Except.noConfusion h
      | some encodedata =>
        simp only [he] at h
        cases h
        exact ⟨kind, bs, encodedata, rfl, rfl, he, rfl⟩

lemma serialize_length (s : Segment) :
    (serialize s).length = 30 + s.Key.length + s.Value.length := by
  simp [serialize, crc32, u64le, u32le]
  omega

/-- C1 (amended): with the identity transformer (to_number applies no
transformer decoding, so the conversion reverses only the canonical
encoding, and the round-trip holds exactly when the transformer leaves the
canonical bytes decodable), build_live(key, n, ttl=0) succeeds and yields
kind=Number, tombstone=0, expires_at=0, key_size=len(key),
value_size=len(encoded n), and to_number returns the original value, whose
get() is the original int64. -/
theorem toNumber_roundtrip_identity_transformer
    (key : List Nat) (t1 t2 : Nat) (n : types.Number) (seg : Segment)
    (hk : key.length < 4294967296)
    (hlo : -9223372036854775808 ≤ n.Value) (hhi : n.Value < 9223372036854775808)
    (ht : n.TTL < 18446744073709551616)
    (h : NewSegment idTransformer t1 t2 key (GoValue.VNumber n) 0 = .ok seg) :
    seg.Type' = Kind.Number ∧ seg.Tombstone = 0 ∧ seg.ExpiredAt = 0 ∧
    seg.KeySize = key.length ∧ seg.ValueSize = (bsonMarshalNumber n).length ∧
    seg.ToNumber = .ok n ∧ Except.map types.Number.Get seg.ToNumber = .ok n.Value := by
  obtain ⟨kind, bs, enc, hkind, hb, he, hseg⟩ := newSegment_ok h
  simp only [toKind, Except.ok.injEq] at hkind
  simp only [GoValue.ToBSON, Option.some.injEq] at hb
  simp only [idTransformer, Option.some.injEq] at he
  subst hkind hb he hseg
  refine ⟨rfl, rfl, rfl, Nat.mod_eq_of_lt hk, ?_, ?_, ?_⟩
  · exact Nat.mod_eq_of_lt (by simp [bsonMarshalNumber])
  · simp [Segment.ToNumber, bson_roundtrip n hlo hhi ht]
  · simp [Segment.ToNumber, bson_roundtrip n hlo hhi ht, types.Number.Get, Except.map]

/-- C1 witness: the spec's own example, key "user:1" and Number 42. -/
theorem toNumber_roundtrip_identity_transformer_witness :
    NewSegment idTransformer 0 0 [117, 115, 101, 114, 58, 49] (GoValue.VNumber ⟨42, 0⟩) 0 =
      .ok ⟨0, Kind.Number, 0, 0, 6, 3, [117, 115, 101, 114, 58, 49], [16, 42, 0]⟩ ∧
    Segment.ToNumber ⟨0, Kind.Number, 0, 0, 6, 3, [117, 115, 101, 114, 58, 49], [16, 42, 0]⟩ =
      .ok ⟨42, 0⟩ ∧
    Except.map types.Number.Get
      (Segment.ToNumber ⟨0, Kind.Number, 0, 0, 6, 3, [117, 115, 101, 114, 58, 49], [16, 42, 0]⟩) =
      .ok 42 := by
  have h := toNumber_roundtrip_identity_transformer [117, 115, 101, 114, 58, 49] 0 0 ⟨42, 0⟩
    ⟨0, Kind.Number, 0, 0, 6, 3, [117, 115, 101, 114, 58, 49], [16, 42, 0]⟩
    (by decide) (by decide) (by decide) (by decide) rfl
  exact ⟨rfl, h.2.2.2.2.2.1, h.2.2.2.2.2.2⟩

/-- C1 counterexample: under a transformer satisfying the spec's round-trip
contract but different from the identity (it prepends one marker word),
build_live succeeds and fills the header as claimed, yet to_number fails
instead of returning 42, because the conversion never applies the
transformer decoding to the stored payload. -/
theorem toNumber_not_transformer_inverse :
    Transformer.RoundTrip prependTransformer ∧
    NewSegment prependTransformer 0 0 [117, 115, 101, 114, 58, 49]
        (GoValue.VNumber ⟨42, 0⟩) 0 =
      .ok ⟨0, Kind.Number, 0, 0, 6, 4, [117, 115, 101, 114, 58, 49], [0, 16, 42, 0]⟩ ∧
    Segment.ToNumber ⟨0, Kind.Number, 0, 0, 6, 4, [117, 115, 101, 114, 58, 49], [0, 16, 42, 0]⟩ =
      .error "bson unmarshal error" := by
  refine ⟨?_, rfl, rfl⟩
  intro bs out h
  simp only [prependTransformer, Option.some.injEq] at h
  subst h
  rfl

/-- C4 (amended): created_at is the first clock reading taken at
construction; when ttl>0, expires_at is the second, separately taken clock
reading plus ttl*1e9 (absent int64 overflow) — equal to
created_at + ttl*1e9 exactly when the two readings coincide — and it is 0
when ttl=0. -/
theorem newSegment_timestamps (tr : Transformer) (t1 t2 : Nat) (key : List Nat)
    (data : GoValue) (ttl : Nat) (seg : Segment)
    (h1 : t1 < 18446744073709551616)
    (h2 : t2 + ttl * 1000000000 < 9223372036854775808)
    (h : NewSegment tr t1 t2 key data ttl = .ok seg) :
    seg.CreatedAt = t1 ∧
    seg.ExpiredAt = (if 0 < ttl then t2 + ttl * 1000000000 else 0) := by
  obtain ⟨kind, bs, enc, hkind, hb, he, hseg⟩ := newSegment_ok h
  subst hseg
  refine ⟨Nat.mod_eq_of_lt h1, ?_⟩
  by_cases hp : 0 < ttl
  · simp only [hp, if_true, if_pos]
    exact expiredAtOf_small t2 ttl h2
  · simp [hp]

/-- C4 witness: clock readings 5 then 7, ttl 2 seconds. -/
theorem newSegment_timestamps_witness :
    NewSegment idTransformer 5 7 [107] (GoValue.VNumber ⟨1, 0⟩) 2 =
      .ok ⟨0, Kind.Number, 2000000007, 5, 1, 3, [107], [16, 1, 0]⟩ ∧
    (⟨0, Kind.Number, 2000000007, 5, 1, 3, [107], [16, 1, 0]⟩ : Segment).CreatedAt = 5 ∧
    (⟨0, Kind.Number, 2000000007, 5, 1, 3, [107], [16, 1, 0]⟩ : Segment).ExpiredAt =
      (if 0 < 2 then 7 + 2 * 1000000000 else 0) := by
  have h := newSegment_timestamps idTransformer 5 7 [107] (GoValue.VNumber ⟨1, 0⟩) 2
    ⟨0, Kind.Number, 2000000007, 5, 1, 3, [107], [16, 1, 0]⟩ (by decide) (by decide) rfl
  exact ⟨rfl, h.1, h.2⟩

/-- C4 counterexample: with first clock reading 0, second clock reading 1
and ttl=1, expires_at is 1000000001, not created_at + ttl*1e9 = 1000000000:
the expiry is computed from a second, later clock reading rather than from
created_at. -/
theorem expiredAt_uses_second_clock_reading :
    NewSegment idTransformer 0 1 [107] (GoValue.VNumber ⟨42, 0⟩) 1 =
      .ok ⟨0, Kind.Number, 1000000001, 0, 1, 3, [107], [16, 42, 0]⟩ ∧
    (⟨0, Kind.Number, 1000000001, 0, 1, 3, [107], [16, 42, 0]⟩ : Segment).ExpiredAt ≠
      (⟨0, Kind.Number, 1000000001, 0, 1, 3, [107], [16, 42, 0]⟩ : Segment).CreatedAt +
        1 * 1000000000 :=
  ⟨rfl, by decide⟩

/-- C5 (amended): ttl_remaining returns the int64 cast of expires_at - now
when expires_at > 0 and expires_at > now — equal to the mathematical
difference whenever it fits below 2^63 — and the sentinel -1 in every
other case (no expiry, or already expired); a segment built with ttl=0
returns -1 at every time, and one built with ttl=T>0 from coinciding
in-range clock readings returns a positive value while now is before
created_at + T seconds and -1 from then on. -/
theorem ttl_remaining_semantics :
    (∀ (s : Segment) (now : Nat), 0 < s.ExpiredAt → now < s.ExpiredAt →
      s.ExpiredAt - now < 9223372036854775808 →
      s.TTL now = ((s.ExpiredAt : Int) - (now : Int))) ∧
    (∀ (s : Segment) (now : Nat), s.ExpiredAt = 0 → s.TTL now = -1) ∧
    (∀ (s : Segment) (now : Nat), s.ExpiredAt ≤ now → s.TTL now = -1) ∧
    (∀ (tr : Transformer) (t1 t2 : Nat) (key : List Nat) (data : GoValue) (seg : Segment),
      NewSegment tr t1 t2 key data 0 = .ok seg → ∀ now, seg.TTL now = -1) ∧
    (∀ (tr : Transformer) (t : Nat) (key : List Nat) (data : GoValue) (ttl : Nat)
        (seg : Segment),
      NewSegment tr t t key data ttl = .ok seg → 0 < ttl →
      t + ttl * 1000000000 < 9223372036854775808 →
      (∀ now, now < t + ttl * 1000000000 → 0 < seg.TTL now) ∧
      (∀ now, t + ttl * 1000000000 ≤ now → seg.TTL now = -1)) := by
  have key_case : ∀ (s : Segment) (now : Nat), 0 < s.ExpiredAt → now < s.ExpiredAt →
      s.ExpiredAt - now < 9223372036854775808 →
      s.TTL now = ((s.ExpiredAt : Int) - (now : Int)) := by
    intro s now h1 h2 h3
    unfold Segment.TTL
    rw [if_pos ⟨h1, h2⟩, int64wrap_eq_self _ (by omega) (by omega)]
    omega
  have neg_case : ∀ (s : Segment) (now : Nat), s.ExpiredAt ≤ now → s.TTL now = -1 := by
    intro s now hle
    unfold Segment.TTL
    rw [if_neg (by omega)]
  refine ⟨key_case, ?_, neg_case, ?_, ?_⟩
  · intro s now h0
    unfold Segment.TTL
    rw [if_neg (by omega)]
  · intro tr t1 t2 key data seg h now
    obtain ⟨kind, bs, enc, hkind, hb, he, hseg⟩ := newSegment_ok h
    subst hseg
    unfold Segment.TTL
    rw [if_neg (by simp)]
  · intro tr t key data ttl seg h hp hsmall
    obtain ⟨kind, bs, enc, hkind, hb, he, hseg⟩ := newSegment_ok h
    have hE : seg.ExpiredAt = t + ttl * 1000000000 := by
      rw [hseg]
      simp only [hp, if_true, if_pos]
      exact expiredAtOf_small t ttl hsmall
    constructor
    · intro now hnow
      rw [key_case seg now (by omega) (by omega) (by omega), hE]
      omega
    · intro now hge
      exact neg_case seg now (by omega)

/-- C5 witness: the four regimes of ttl_remaining at concrete segments:
a live unexpired segment, a no-expiry segment, an expired segment, a
ttl=0 build, and a ttl=1 build before and after its deadline. -/
theorem ttl_remaining_semantics_witness :
    Segment.TTL ⟨0, Kind.Unknown, 100, 0, 0, 0, [], []⟩ 40 = 60 ∧
    Segment.TTL ⟨0, Kind.Unknown, 0, 0, 0, 0, [], []⟩ 40 = -1 ∧
    Segment.TTL ⟨0, Kind.Unknown, 100, 0, 0, 0, [], []⟩ 200 = -1 ∧
    Segment.TTL ⟨0, Kind.Number, 0, 3, 1, 3, [107], [16, 1, 0]⟩ 999 = -1 ∧
    0 < Segment.TTL ⟨0, Kind.Number, 1000000005, 5, 1, 3, [107], [16, 1, 0]⟩ 17 ∧
    Segment.TTL ⟨0, Kind.Number, 1000000005, 5, 1, 3, [107], [16, 1, 0]⟩ 2000000000 = -1 := by
  have h5 := ttl_remaining_semantics.2.2.2.2 idTransformer 5 [107] (GoValue.VNumber ⟨1, 0⟩) 1
    ⟨0, Kind.Number, 1000000005, 5, 1, 3, [107], [16, 1, 0]⟩ rfl (by decide) (by decide)
  have h4 := ttl_remaining_semantics.2.2.2.1 idTransformer 3 4 [107] (GoValue.VNumber ⟨1, 0⟩)
    ⟨0, Kind.Number, 0, 3, 1, 3, [107], [16, 1, 0]⟩ rfl 999
  refine ⟨?_, ?_, ?_, h4, h5.1 17 (by decide), h5.2 2000000000 (by decide)⟩
  · have := ttl_remaining_semantics.1 ⟨0, Kind.Unknown, 100, 0, 0, 0, [], []⟩ 40
      (by decide) (by decide) (by decide)
    simpa using this
  · exact ttl_remaining_semantics.2.1 ⟨0, Kind.Unknown, 0, 0, 0, 0, [], []⟩ 40 rfl
  · exact ttl_remaining_semantics.2.2.1 ⟨0, Kind.Unknown, 100, 0, 0, 0, [], []⟩ 200 (by decide)

/-- C5 counterexample: a segment whose expiry is 2^64-1 ns, read at now=0,
is inside the claim's "expires_at > 0 and expires_at > now" case, yet
ttl_remaining returns -1 (the uint64 difference reinterpreted as int64
wraps to a negative number), not expires_at - now. -/
theorem ttl_wraps_for_huge_expiry :
    (0 : Nat) < 18446744073709551615 ∧
    Segment.TTL ⟨0, Kind.Unknown, 18446744073709551615, 0, 0, 0, [], []⟩ 0 = -1 ∧
    (18446744073709551615 : Int) - 0 ≠ -1 :=
  ⟨by decide, by decide, by decide⟩

/-- C6 (amended): both construction paths store the key verbatim and set
key_size and value_size to the corresponding byte lengths reduced modulo
2^32 (equal to the exact lengths whenever those are below the uint32
range); NewSegment yields tombstone=0, while NewTombstoneSegment always
succeeds with tombstone=1, kind=Unknown, an empty value, value_size=0 and
expires_at=0, so is_tombstone holds of its result and tombstone=1 implies
kind=Unknown and value_size=0 across both paths. -/
theorem segment_size_invariants :
    (∀ (tr : Transformer) (t1 t2 : Nat) (key : List Nat) (data : GoValue) (ttl : Nat)
        (seg : Segment), NewSegment tr t1 t2 key data ttl = .ok seg →
      seg.Key = key ∧ seg.KeySize = key.length % 4294967296 ∧
      seg.ValueSize = seg.Value.length % 4294967296 ∧ seg.Tombstone = 0 ∧
      (key.length < 4294967296 → seg.KeySize = key.length) ∧
      (seg.Value.length < 4294967296 → seg.ValueSize = seg.Value.length)) ∧
    (∀ (t : Nat) (key : List Nat),
      (NewTombstoneSegment t key).Tombstone = 1 ∧
      (NewTombstoneSegment t key).Type' = Kind.Unknown ∧
      (NewTombstoneSegment t key).Value = [] ∧
      (NewTombstoneSegment t key).ValueSize = 0 ∧
      (NewTombstoneSegment t key).ExpiredAt = 0 ∧
      (NewTombstoneSegment t key).IsTombstone = true ∧
      (NewTombstoneSegment t key).Key = key ∧
      (NewTombstoneSegment t key).KeySize = key.length % 4294967296 ∧
      (key.length < 4294967296 → (NewTombstoneSegment t key).KeySize = key.length)) := by
  constructor
  · intro tr t1 t2 key data ttl seg h
    obtain ⟨kind, bs, enc, hkind, hb, he, hseg⟩ := newSegment_ok h
    subst hseg
    exact ⟨rfl, rfl, rfl, rfl, fun hlt => Nat.mod_eq_of_lt hlt,
      fun hlt => Nat.mod_eq_of_lt hlt⟩
  · intro t key
    exact ⟨rfl, rfl, rfl, rfl, rfl, rfl, rfl, rfl, fun hlt => Nat.mod_eq_of_lt hlt⟩

/-- C6 witness: the invariants at a concrete live build and a concrete
tombstone. -/
theorem segment_size_invariants_witness :
    (⟨0, Kind.Number, 0, 0, 1, 3, [107], [16, 42, 0]⟩ : Segment).KeySize = 1 ∧
    (⟨0, Kind.Number, 0, 0, 1, 3, [107], [16, 42, 0]⟩ : Segment).ValueSize = 3 ∧
    (⟨0, Kind.Number, 0, 0, 1, 3, [107], [16, 42, 0]⟩ : Segment).Tombstone = 0 ∧
    (NewTombstoneSegment 9 [107, 49]).Tombstone = 1 ∧
    (NewTombstoneSegment 9 [107, 49]).Type' = Kind.Unknown ∧
    (NewTombstoneSegment 9 [107, 49]).ValueSize = 0 ∧
    (NewTombstoneSegment 9 [107, 49]).IsTombstone = true ∧
    (NewTombstoneSegment 9 [107, 49]).KeySize = 2 := by
  have h1 := segment_size_invariants.1 idTransformer 0 0 [107] (GoValue.VNumber ⟨42, 0⟩) 0
    ⟨0, Kind.Number, 0, 0, 1, 3, [107], [16, 42, 0]⟩ rfl
  have h2 := segment_size_invariants.2 9 [107, 49]
  exact ⟨h1.2.2.2.2.1 (by decide), h1.2.2.2.2.2 (by decide), h1.2.2.2.1,
    h2.1, h2.2.1, h2.2.2.2.1, h2.2.2.2.2.2.1, h2.2.2.2.2.2.2.2.2 (by decide)⟩

/-- C6 counterexample: a tombstone built from a key of length 2^32 stores
key_size = 0 because the uint32 cast wraps, so key_size == len(key) does
not hold of every constructed segment. -/
theorem keySize_wraps_at_4GiB :
    (NewTombstoneSegment 0 (List.replicate 4294967296 107)).KeySize = 0 ∧
    (NewTombstoneSegment 0 (List.replicate 4294967296 107)).Key.length = 4294967296 ∧
    (0 : Nat) ≠ 4294967296 := by
  refine ⟨?_, ?_, by decide⟩
  · simp only [NewTombstoneSegment, List.length_replicate, Nat.mod_self]
  · simp only [NewTombstoneSegment, List.length_replicate]

/-- C7 (amended): size(s) is (26 + key_size + value_size + 4) reduced
modulo 2^32 (uint32 arithmetic), 26 being the fixed header 1+1+8+8+4+4 and
4 the trailing checksum; for every segment whose stored sizes match its
byte regions and whose total stays below 2^32, this equals both the plain
sum and the exact serialized wire length. -/
theorem size_matches_wire_length (s : Segment) :
    Segment.Size s = (26 + s.KeySize + s.ValueSize + 4) % 4294967296 ∧
    (s.KeySize = s.Key.length → s.ValueSize = s.Value.length →
      26 + s.KeySize + s.ValueSize + 4 < 4294967296 →
      Segment.Size s = 26 + s.KeySize + s.ValueSize + 4 ∧
      Segment.Size s = (serialize s).length) := by
  refine ⟨rfl, fun hk hv hlt => ⟨?_, ?_⟩⟩
  · unfold Segment.Size
    omega
  · rw [serialize_length]
    unfold Segment.Size
    omega

/-- C7 witness: a concrete one-byte-key tombstone record measures 31 bytes
and serializes to 31 bytes. -/
theorem size_matches_wire_length_witness :
    (⟨1, Kind.Unknown, 0, 0, 1, 0, [107], []⟩ : Segment).KeySize =
      (⟨1, Kind.Unknown, 0, 0, 1, 0, [107], []⟩ : Segment).Key.length ∧
    Segment.Size ⟨1, Kind.Unknown, 0, 0, 1, 0, [107], []⟩ = 31 ∧
    Segment.Size ⟨1, Kind.Unknown, 0, 0, 1, 0, [107], []⟩ =
      (serialize ⟨1, Kind.Unknown, 0, 0, 1, 0, [107], []⟩).length := by
  have h := (size_matches_wire_length ⟨1, Kind.Unknown, 0, 0, 1, 0, [107], []⟩).2
    rfl rfl (by decide)
  exact ⟨rfl, by decide, h.2⟩

/-- C7 counterexample: for a tombstone with a key of length 2^32, size()
wraps to 30 while the serialized record is 2^32+30 bytes long, so size does
not equal the serialized wire length for every segment. -/
theorem size_overflows_wire_length :
    Segment.Size (NewTombstoneSegment 0 (List.replicate 4294967296 107)) = 30 ∧
    (serialize (NewTombstoneSegment 0 (List.replicate 4294967296 107))).length =
      4294967326 ∧
    (30 : Nat) ≠ 4294967326 := by
  refine ⟨?_, ?_, by decide⟩
  · have hK : (NewTombstoneSegment 0 (List.replicate 4294967296 107)).KeySize = 0 := by
      simp only [NewTombstoneSegment, List.length_replicate, Nat.mod_self]
    have hV : (NewTombstoneSegment 0 (List.replicate 4294967296 107)).ValueSize = 0 := rfl
    rw [Segment.Size, hK, hV]
  · have gen : ∀ key : List Nat, key.length = 4294967296 →
        (serialize (NewTombstoneSegment 0 key)).length = 4294967326 := by
      intro key hkey
      rw [serialize_length]
      simp only [NewTombstoneSegment, hkey, List.length_nil]
    exact gen (List.replicate 4294967296 107) (by rw [List.length_replicate])

/-- The message msg names the kind k: the kind's lower-case word occurs
somewhere inside the message. -/
def kindMention (msg : String) (k : Kind) : Prop :=
  List.IsInfix (kindWord k).data msg.data

instance (msg : String) (k : Kind) : Decidable (kindMention msg k) :=
  List.decidableInfix _ _

/-- C2 (amended): for every segment and mismatched requested kind, the
conversion fails with a TypeConversionError and never returns a value, but
the error message names only the requested kind, not the segment's actual
kind. -/
theorem toConversion_mismatch_error (s : Segment) :
    (s.Type' ≠ Kind.Set → s.ToSet = .error "not support conversion to set type") ∧
    (s.Type' ≠ Kind.ZSet → s.ToZSet = .error "not support conversion to zset type") ∧
    (s.Type' ≠ Kind.List → s.ToList = .error "not support conversion to list type") ∧
    (s.Type' ≠ Kind.Text → s.ToText = .error "not support conversion to text type") ∧
    (s.Type' ≠ Kind.Table → s.ToTable = .error "not support conversion to table type") ∧
    (s.Type' ≠ Kind.Number → s.ToNumber = .error "not support conversion to number type") ∧
    kindMention "not support conversion to set type" Kind.Set ∧
    kindMention "not support conversion to zset type" Kind.ZSet ∧
    kindMention "not support conversion to list type" Kind.List ∧
    kindMention "not support conversion to text type" Kind.Text ∧
    kindMention "not support conversion to table type" Kind.Table ∧
    kindMention "not support conversion to number type" Kind.Number := by
  refine ⟨fun h => ?_, fun h => ?_, fun h => ?_, fun h => ?_, fun h => ?_, fun h => ?_,
    by decide, by decide, by decide, by decide, by decide, by decide⟩ <;>
    simp [Segment.ToSet, Segment.ToZSet, Segment.ToList, Segment.ToText,
      Segment.ToTable, Segment.ToNumber, h]

/-- C2 witness: the six mismatch errors at a concrete Unknown-kind segment. -/
theorem toConversion_mismatch_error_witness :
    Segment.ToSet ⟨0, Kind.Unknown, 0, 0, 0, 0, [], []⟩ =
      .error "not support conversion to set type" ∧
    Segment.ToZSet ⟨0, Kind.Unknown, 0, 0, 0, 0, [], []⟩ =
      .error "not support conversion to zset type" ∧
    Segment.ToList ⟨0, Kind.Unknown, 0, 0, 0, 0, [], []⟩ =
      .error "not support conversion to list type" ∧
    Segment.ToText ⟨0, Kind.Unknown, 0, 0, 0, 0, [], []⟩ =
      .error "not support conversion to text type" ∧
    Segment.ToTable ⟨0, Kind.Unknown, 0, 0, 0, 0, [], []⟩ =
      .error "not support conversion to table type" ∧
    Segment.ToNumber ⟨0, Kind.Unknown, 0, 0, 0, 0, [], []⟩ =
      .error "not support conversion to number type" :=
  ⟨(toConversion_mismatch_error ⟨0, Kind.Unknown, 0, 0, 0, 0, [], []⟩).1 (by decide),
   (toConversion_mismatch_error ⟨0, Kind.Unknown, 0, 0, 0, 0, [], []⟩).2.1 (by decide),
   (toConversion_mismatch_error ⟨0, Kind.Unknown, 0, 0, 0, 0, [], []⟩).2.2.1 (by decide),
   (toConversion_mismatch_error ⟨0, Kind.Unknown, 0, 0, 0, 0, [], []⟩).2.2.2.1 (by decide),
   (toConversion_mismatch_error ⟨0, Kind.Unknown, 0, 0, 0, 0, [], []⟩).2.2.2.2.1 (by decide),
   (toConversion_mismatch_error ⟨0, Kind.Unknown, 0, 0, 0, 0, [], []⟩).2.2.2.2.2.1 (by decide)⟩

/-- C2 counterexample: to_text on a Number-kind segment fails, but the
error message does not name the segment's actual kind (number), refuting
the claim that the message names both the requested and the actual kind. -/
theorem toText_error_omits_actual_kind :
    Segment.ToText ⟨0, Kind.Number, 0, 0, 1, 3, [107], [16, 42, 0]⟩ =
      .error "not support conversion to text type" ∧
    ¬ kindMention "not support conversion to text type" Kind.Number :=
  ⟨rfl, by decide⟩

/-- C3 (amended): toKind maps each of the six value variants (and also a
pointer to a Number) to its Kind tag with no error, and every other input
fails with the constant UnsupportedType error "unknown data type", which
carries no description of the rejected value. -/
theorem toKind_total_constant_error :
    (∀ s, toKind (GoValue.VSet s) = .ok Kind.Set) ∧
    (∀ z, toKind (GoValue.VZSet z) = .ok Kind.ZSet) ∧
    (∀ l, toKind (GoValue.VList l) = .ok Kind.List) ∧
    (∀ t, toKind (GoValue.VText t) = .ok Kind.Text) ∧
    (∀ t, toKind (GoValue.VTable t) = .ok Kind.Table) ∧
    (∀ n, toKind (GoValue.VNumber n) = .ok Kind.Number) ∧
    (∀ n, toKind (GoValue.PNumber n) = .ok Kind.Number) ∧
    (∀ s, toKind (GoValue.PSet s) = .error "unknown data type") ∧
    (∀ z, toKind (GoValue.PZSet z) = .error "unknown data type") ∧
    (∀ l, toKind (GoValue.PList l) = .error "unknown data type") ∧
    (∀ t, toKind (GoValue.PText t) = .error "unknown data type") ∧
    (∀ t, toKind (GoValue.PTable t) = .error "unknown data type") ∧
    (∀ d, toKind (GoValue.Other d) = .error "unknown data type") :=
  ⟨fun _ => rfl, fun _ => rfl, fun _ => rfl, fun _ => rfl, fun _ => rfl, fun _ => rfl,
   fun _ => rfl, fun _ => rfl, fun _ => rfl, fun _ => rfl, fun _ => rfl, fun _ => rfl,
   fun _ => rfl⟩

/-- C3 counterexample: a pointer to a Number lies outside the closed set of
value variants yet toKind succeeds on it, and the failure answer for an
unsupported input is one constant message that does not contain the
rejected value's description, refuting both halves of the claim. -/
theorem toKind_error_carries_no_description :
    toKind (GoValue.PNumber ⟨42, 0⟩) = .ok Kind.Number ∧
    toKind (GoValue.Other "mystery value") = .error "unknown data type" ∧
    toKind (GoValue.Other "other value") = .error "unknown data type" ∧
    ¬ List.IsInfix "mystery value".data "unknown data type".data ∧
    NewSegment idTransformer 0 0 [107] (GoValue.Other "mystery value") 0 =
      .error "unsupported data type: unknown data type" :=
  ⟨rfl, rfl, rfl, by decide, rfl⟩

/-- C9: the type switch maps both a Number value and a pointer to a Number
to the Number tag, while a pointer to any of the other five variants falls
to the default branch and is rejected, so NewSegment fails for those
pointer inputs. -/
theorem toKind_pointer_asymmetry :
    (∀ n : types.Number, toKind (GoValue.VNumber n) = .ok Kind.Number ∧
      toKind (GoValue.PNumber n) = .ok Kind.Number) ∧
    (∀ s : types.Set, toKind (GoValue.PSet s) = .error "unknown data type") ∧
    (∀ z : types.ZSet, toKind (GoValue.PZSet z) = .error "unknown data type") ∧
    (∀ l : types.List, toKind (GoValue.PList l) = .error "unknown data type") ∧
    (∀ t : types.Text, toKind (GoValue.PText t) = .error "unknown data type") ∧
    (∀ t : types.Table, toKind (GoValue.PTable t) = .error "unknown data type") ∧
    (∀ (tr : Transformer) (t1 t2 ttl : Nat) (key : List Nat) (s : types.Set),
      NewSegment tr t1 t2 key (GoValue.PSet s) ttl =
        .error "unsupported data type: unknown data type") ∧
    (∀ (tr : Transformer) (t1 t2 ttl : Nat) (key : List Nat) (z : types.ZSet),
      NewSegment tr t1 t2 key (GoValue.PZSet z) ttl =
        .error "unsupported data type: unknown data type") ∧
    (∀ (tr : Transformer) (t1 t2 ttl : Nat) (key : List Nat) (l : types.List),
      NewSegment tr t1 t2 key (GoValue.PList l) ttl =
        .error "unsupported data type: unknown data type") ∧
    (∀ (tr : Transformer) (t1 t2 ttl : Nat) (key : List Nat) (t : types.Text),
      NewSegment tr t1 t2 key (GoValue.PText t) ttl =
        .error "unsupported data type: unknown data type") ∧
    (∀ (tr : Transformer) (t1 t2 ttl : Nat) (key : List Nat) (t : types.Table),
      NewSegment tr t1 t2 key (GoValue.PTable t) ttl =
        .error "unsupported data type: unknown data type") :=
  ⟨fun _ => ⟨rfl, rfl⟩, fun _ => rfl, fun _ => rfl, fun _ => rfl, fun _ => rfl,
   fun _ => rfl, fun _ _ _ _ _ _ => rfl, fun _ _ _ _ _ _ => rfl, fun _ _ _ _ _ _ => rfl,
   fun _ _ _ _ _ _ => rfl, fun _ _ _ _ _ _ => rfl⟩

/-- C8: subtract(delta) produces the same return value and final state as
add of the negation of delta (the int64 negation, which agrees with the
mathematical negation for every delta above the minimum int64), increment
and decrement are add(1) and subtract(1), each returns the post-update
value, and overflow wraps per two's-complement signed 64-bit arithmetic. -/
theorem number_sub_add_equiv :
    (∀ (n : types.Number) (delta : Int), n.Sub delta = n.Add (int64wrap (-delta))) ∧
    (∀ (n : types.Number) (delta : Int),
      -9223372036854775808 < delta → delta < 9223372036854775808 →
        n.Sub delta = n.Add (-delta)) ∧
    (∀ n : types.Number, n.Increment = n.Add 1) ∧
    (∀ n : types.Number, n.Decrement = n.Sub 1) ∧
    (∀ (n : types.Number) (delta : Int),
      (n.Add delta).1 = (n.Add delta).2.Value ∧
      (n.Add delta).1 = int64wrap (n.Value + delta) ∧
      (n.Sub delta).1 = (n.Sub delta).2.Value) ∧
    (types.Number.mk 9223372036854775807 0).Add 1 =
      (-9223372036854775808, types.Number.mk (-9223372036854775808) 0) ∧
    (types.Number.mk (-9223372036854775808) 7).Sub 1 =
      (9223372036854775807, types.Number.mk 9223372036854775807 7) := by
  refine ⟨fun n delta => rfl, fun n delta hlo hhi => ?_, fun n => rfl, fun n => rfl,
    fun n delta => ⟨rfl, rfl, rfl⟩, by decide, by decide⟩
  unfold types.Number.Sub types.Number.Add
  rw [int64wrap_eq_self (-delta) (by omega) (by omega)]

/-- C8 witness: the subtract/add equivalence with mathematical negation at
a concrete in-range delta. -/
theorem number_sub_add_equiv_witness :
    -9223372036854775808 < (5 : Int) ∧ (5 : Int) < 9223372036854775808 ∧
    (types.Number.mk 10 3).Sub 5 = (types.Number.mk 10 3).Add (-5) :=
  ⟨by decide, by decide,
    number_sub_add_equiv.2.1 (types.Number.mk 10 3) 5 (by decide) (by decide)⟩

/-- C10: every Number operation leaves the TTL field unchanged, and both
the returned values and the updated Value field depend only on the Value
field, never on TTL. -/
theorem number_ops_preserve_ttl :
    (∀ (n : types.Number) (delta : Int), (n.Add delta).2.TTL = n.TTL) ∧
    (∀ (n : types.Number) (delta : Int), (n.Sub delta).2.TTL = n.TTL) ∧
    (∀ n : types.Number, n.Increment.2.TTL = n.TTL) ∧
    (∀ n : types.Number, n.Decrement.2.TTL = n.TTL) ∧
    (∀ (n : types.Number) (v : Int), (n.Set v).TTL = n.TTL) ∧
    (∀ (n : types.Number) (old new : Int), (n.CompareAndSwap old new).2.TTL = n.TTL) ∧
    (∀ (v : Int) (t t' : Nat) (delta : Int) (old new : Int),
      ((types.Number.mk v t).Add delta).1 = ((types.Number.mk v t').Add delta).1 ∧
      ((types.Number.mk v t).Add delta).2.Value =
        ((types.Number.mk v t').Add delta).2.Value ∧
      ((types.Number.mk v t).Sub delta).1 = ((types.Number.mk v t').Sub delta).1 ∧
      (types.Number.mk v t).Get = (types.Number.mk v t').Get ∧
      ((types.Number.mk v t).Set delta).Value = ((types.Number.mk v t').Set delta).Value ∧
      ((types.Number.mk v t).CompareAndSwap old new).1 =
        ((types.Number.mk v t').CompareAndSwap old new).1 ∧
      ((types.Number.mk v t).CompareAndSwap old new).2.Value =
        ((types.Number.mk v t').CompareAndSwap old new).2.Value) := by
  refine ⟨fun n delta => rfl, fun n delta => rfl, fun n => rfl, fun n => rfl,
    fun n v => rfl, fun n old new => ?_, fun v t t' delta old new => ?_⟩
  · unfold types.Number.CompareAndSwap
    split <;> rfl
  · refine ⟨rfl, rfl, rfl, rfl, rfl, ?_, ?_⟩ <;>
      unfold types.Number.CompareAndSwap <;> split <;> simp_all
